import Mathlib

/-!
Shallow embedding of the MicroTBX-Modbus client channel
(src/source/tbxmb_client.c) and proofs about it.

Machine integers are modelled as Nat with explicit truncation (% 2 ^ 8,
% 2 ^ 16) where the C code performs a narrowing cast.  C pointers that may
be NULL are modelled as Option values; byte arrays behind pointers are
modelled as functions Nat -> Nat (index to byte) or as List Nat for
caller-owned arrays.  Calls into the consumed external layers (transport
function pointers, OSAL semaphores, memory pool) are modelled by an
environment record supplying their results, and by traces recording the
calls the client makes into them.
-/

/-- Boolean true value of MicroTBX (TBX_TRUE, value 1 in microtbx.h). -/
def TBX_TRUE : Nat := 1

/-- Boolean false value of MicroTBX (TBX_FALSE, value 0 in microtbx.h). -/
def TBX_FALSE : Nat := 0

/-- Generic okay result value of MicroTBX (TBX_OK). -/
def TBX_OK : Nat := 1

/-- Generic error result value of MicroTBX (TBX_ERROR). -/
def TBX_ERROR : Nat := 0

/-- Digital on state of MicroTBX (TBX_ON). -/
def TBX_ON : Nat := 1

/-- Digital off state of MicroTBX (TBX_OFF). -/
def TBX_OFF : Nat := 0

/-- Unique context type to identify a context as being a client channel
(tbxmb_client.c line 47). -/
def TBX_MB_CLIENT_CONTEXT_TYPE : Nat := 23

/-- Modelled from the spec: the node address reserved for broadcast requests
(TBX_MB_TP_NODE_ADDR_BROADCAST of the transport header, which is not under
src/); the spec fixes node address 0 as the broadcast address. -/
def TBX_MB_TP_NODE_ADDR_BROADCAST : Nat := 0

/-- Modelled from the spec: the maximum node address a request may target
(TBX_MB_TP_NODE_ADDR_MAX of the transport header, which is not under src/);
the Modbus standard maximum server address 247 is used.  The proofs below
only rely on the guard shape node <= max, not on the concrete value. -/
def TBX_MB_TP_NODE_ADDR_MAX : Nat := 247

/-- Function code 04, read input registers (TBX_MB_FC04_READ_INPUT_REGISTERS
of the common header, which is not under src/; the spec states the mapping is
fixed by the Modbus standard). -/
def TBX_MB_FC04_READ_INPUT_REGISTERS : Nat := 4

/-- Bit mask of the exception bit in the function code of a response PDU
(TBX_MB_FC_EXCEPTION_MASK; the spec states the exception indicator is the
top bit of the code byte). -/
def TBX_MB_FC_EXCEPTION_MASK : Nat := 128

/-- A transport layer packet (tTbxMbTpPacket): node address, PDU function
code byte, PDU data bytes (index to byte value) and data length. -/
structure tTbxMbTpPacket where
  node : Nat
  code : Nat
  data : Nat → Nat
  dataLen : Nat

/-- The transport layer context as far as the client channel observes it:
presence of the four interface functions (the behaviour of those functions is
supplied by the environment records below), the back-reference to the owning
channel (presence only) and the isClient marker. -/
structure tTbxMbTpCtx where
  transmitFcn : Bool
  receptionDoneFcn : Bool
  getRxPacketFcn : Bool
  getTxPacketFcn : Bool
  channelCtx : Bool
  isClient : Nat
deriving DecidableEq, Inhabited

/-- The client channel context (tTbxMbClientCtx of tbxmb_client_private.h,
fields as used by tbxmb_client.c).  Option models nullable pointers; the
processFcn field records only whether the event handler pointer is set. -/
structure tTbxMbClientCtx where
  type : Nat
  instancePtr : Option Unit
  pollFcn : Option Unit
  processFcn : Option Unit
  responseTimeout : Nat
  turnaroundDelay : Nat
  responseSem : Option Unit
  tpCtx : Option tTbxMbTpCtx
deriving Inhabited

/-- Helper function to extract an unsigned 16-bit value from the data of a
Modbus packet, stored big endian (TbxMbClientExtractUInt16BE):
(uint16_t)data[off] << 8 | data[off+1]. -/
def TbxMbClientExtractUInt16BE (data : Nat → Nat) (off : Nat) : Nat :=
  (data off <<< 8) ||| data (off + 1)

/-- Helper function to store an unsigned 16-bit value in the data of a Modbus
packet in big endian format (TbxMbClientStoreUInt16BE):
data[off] = (uint8_t)(value >> 8); data[off+1] = (uint8_t)value. -/
def TbxMbClientStoreUInt16BE (value : Nat) (data : Nat → Nat) (off : Nat) :
    Nat → Nat :=
  fun i =>
    if i = off then (value >>> 8) % 2 ^ 8
    else if i = off + 1 then value % 2 ^ 8
    else data i

/-- Environment for TbxMbClientTransceive: result of the transport transmit
function and result of the OSAL semaphore take as a function of the wait
timeout passed to it (TBX_TRUE when the semaphore was obtained, TBX_FALSE on
timeout). -/
structure TransceiveEnv where
  transmitResult : Nat
  semTakeResult : Nat → Nat

/-- Output of TbxMbClientTransceive: the function result and the trace of
waits performed on the response semaphore (the timeout value passed to each
TbxMbOsalSemTake call). -/
structure TransceiveOut where
  result : Nat
  semTakeCalls : List Nat
deriving DecidableEq

/-- Helper function to both transmit a request packet and receive the
response packet, if applicable (TbxMbClientTransceive, tbxmb_client.c lines
266-301): wait budget is responseTimeout, replaced by turnaroundDelay for a
broadcast; transmit first; on transmit success wait on the response
semaphore; on a wait timeout flag an error only for unicast. -/
def TbxMbClientTransceive (env : TransceiveEnv) (clientCtx : tTbxMbClientCtx)
    (isBroadcast : Nat) : TransceiveOut :=
  let waitTimeout :=
    if isBroadcast = TBX_TRUE then clientCtx.turnaroundDelay
    else clientCtx.responseTimeout
  let result := env.transmitResult
  if result = TBX_OK then
    if env.semTakeResult waitTimeout = TBX_FALSE then
      if isBroadcast = TBX_FALSE then
        { result := TBX_ERROR, semTakeCalls := [waitTimeout] }
      else
        { result := result, semTakeCalls := [waitTimeout] }
    else
      { result := result, semTakeCalls := [waitTimeout] }
  else
    { result := result, semTakeCalls := [] }

/-- Or of a value shifted left by one byte with a byte below 256 is the
corresponding positional sum. -/
theorem shiftLeft_lor_byte (a b : Nat) (hb : b < 2 ^ 8) :
    (a <<< 8) ||| b = 2 ^ 8 * a + b := by
  apply Nat.eq_of_testBit_eq
  intro i
  rw [Nat.testBit_lor, Nat.testBit_shiftLeft, Nat.testBit_mul_pow_two_add a hb i]
  by_cases h : i < 8
  · have h8 : ¬ (8 ≤ i) := by omega
    simp [h, h8]
  · have h8 : 8 ≤ i := by omega
    have hbz : b.testBit i = false :=
      Nat.testBit_lt_two_pow (lt_of_lt_of_le hb (Nat.pow_le_pow_right (by omega) h8))
    simp [h, h8, hbz]

/-- Unfolding helper: transceive when the transmit call fails. -/
theorem transceive_transmit_fail (env : TransceiveEnv)
    (clientCtx : tTbxMbClientCtx) (isBroadcast : Nat)
    (h : env.transmitResult ≠ TBX_OK) :
    TbxMbClientTransceive env clientCtx isBroadcast =
      { result := env.transmitResult, semTakeCalls := [] } := by
  simp [TbxMbClientTransceive, h]

/-- Unfolding helper: transceive when transmit succeeds; it waits exactly
once, with the broadcast-dependent budget. -/
theorem transceive_transmit_ok (env : TransceiveEnv)
    (clientCtx : tTbxMbClientCtx) (isBroadcast : Nat)
    (h : env.transmitResult = TBX_OK) :
    (TbxMbClientTransceive env clientCtx isBroadcast).semTakeCalls =
      [if isBroadcast = TBX_TRUE then clientCtx.turnaroundDelay
       else clientCtx.responseTimeout] := by
  simp only [TbxMbClientTransceive, h]
  split_ifs <;> rfl

/-- Unfolding helper: unicast transceive with transmit success and the
semaphore obtained in time returns TBX_OK. -/
theorem transceive_unicast_ok (env : TransceiveEnv)
    (clientCtx : tTbxMbClientCtx)
    (h : env.transmitResult = TBX_OK)
    (hs : env.semTakeResult clientCtx.responseTimeout ≠ TBX_FALSE) :
    TbxMbClientTransceive env clientCtx TBX_FALSE =
      { result := TBX_OK, semTakeCalls := [clientCtx.responseTimeout] } := by
  simp only [TBX_FALSE] at hs
  simp [TbxMbClientTransceive, h, hs, TBX_TRUE, TBX_FALSE]

/-- C1: for every client channel, transceive uses responseTimeout as the wait
budget for a unicast request and turnaroundDelay for a broadcast request; if
the transport transmit call fails it returns failure immediately without
waiting on the semaphore; if transmit succeeds but the semaphore wait times
out, the result is failure for unicast and success for broadcast. -/
theorem transceive_timeout_policy (env : TransceiveEnv)
    (clientCtx : tTbxMbClientCtx) :
    (env.transmitResult = TBX_OK →
      (TbxMbClientTransceive env clientCtx TBX_FALSE).semTakeCalls =
        [clientCtx.responseTimeout] ∧
      (TbxMbClientTransceive env clientCtx TBX_TRUE).semTakeCalls =
        [clientCtx.turnaroundDelay]) ∧
    (env.transmitResult = TBX_ERROR →
      (TbxMbClientTransceive env clientCtx TBX_FALSE).result = TBX_ERROR ∧
      (TbxMbClientTransceive env clientCtx TBX_TRUE).result = TBX_ERROR ∧
      (TbxMbClientTransceive env clientCtx TBX_FALSE).semTakeCalls = [] ∧
      (TbxMbClientTransceive env clientCtx TBX_TRUE).semTakeCalls = []) ∧
    (env.transmitResult = TBX_OK →
      env.semTakeResult clientCtx.responseTimeout = TBX_FALSE →
      (TbxMbClientTransceive env clientCtx TBX_FALSE).result = TBX_ERROR) ∧
    (env.transmitResult = TBX_OK →
      env.semTakeResult clientCtx.turnaroundDelay = TBX_FALSE →
      (TbxMbClientTransceive env clientCtx TBX_TRUE).result = TBX_OK) := by
  refine ⟨fun h => ⟨?_, ?_⟩, fun h => ?_, fun h hs => ?_, fun h hs => ?_⟩
  · rw [transceive_transmit_ok env clientCtx TBX_FALSE h]
    simp [TBX_TRUE, TBX_FALSE]
  · rw [transceive_transmit_ok env clientCtx TBX_TRUE h]
    simp
  · have hne : env.transmitResult ≠ TBX_OK := by
      rw [h]; simp [TBX_ERROR, TBX_OK]
    rw [transceive_transmit_fail env clientCtx TBX_FALSE hne,
        transceive_transmit_fail env clientCtx TBX_TRUE hne]
    simp [h]
  · simp only [TBX_FALSE] at hs
    simp [TbxMbClientTransceive, h, hs, TBX_TRUE, TBX_FALSE, TBX_ERROR]
  · simp only [TBX_FALSE] at hs
    simp [TbxMbClientTransceive, h, hs, TBX_TRUE, TBX_FALSE, TBX_OK]

/-- Witness for C1 at a concrete channel and environment. -/
theorem transceive_timeout_policy_witness :
    (({ transmitResult := TBX_OK,
        semTakeResult := fun _ => TBX_FALSE } : TransceiveEnv).transmitResult
      = TBX_OK) ∧
    (TbxMbClientTransceive
      { transmitResult := TBX_OK, semTakeResult := fun _ => TBX_FALSE }
      { type := 23, instancePtr := none, pollFcn := none,
        processFcn := some (), responseTimeout := 500, turnaroundDelay := 100,
        responseSem := some (), tpCtx := none } TBX_FALSE).semTakeCalls =
      [500] ∧
    (TbxMbClientTransceive
      { transmitResult := TBX_OK, semTakeResult := fun _ => TBX_FALSE }
      { type := 23, instancePtr := none, pollFcn := none,
        processFcn := some (), responseTimeout := 500, turnaroundDelay := 100,
        responseSem := some (), tpCtx := none } TBX_FALSE).result =
      TBX_ERROR := by
  refine ⟨rfl, ?_, ?_⟩
  · exact ((transceive_timeout_policy
      { transmitResult := TBX_OK, semTakeResult := fun _ => TBX_FALSE }
      { type := 23, instancePtr := none, pollFcn := none,
        processFcn := some (), responseTimeout := 500, turnaroundDelay := 100,
        responseSem := some (), tpCtx := none }).1 rfl).1
  · exact (transceive_timeout_policy
      { transmitResult := TBX_OK, semTakeResult := fun _ => TBX_FALSE }
      { type := 23, instancePtr := none, pollFcn := none,
        processFcn := some (), responseTimeout := 500, turnaroundDelay := 100,
        responseSem := some (), tpCtx := none }).2.2.1 rfl rfl

/-- C8: for every 16-bit unsigned value v, storing v with the big-endian
store helper and reading it back with the big-endian extract helper yields v
again, and the stored bytes are big endian: the byte at the first position is
the high byte of v and the byte at the second position is the low byte. -/
theorem storeExtract_roundtrip (v : Nat) (data : Nat → Nat) (off : Nat)
    (hv : v < 2 ^ 16) :
    TbxMbClientStoreUInt16BE v data off off = v / 2 ^ 8 ∧
    TbxMbClientStoreUInt16BE v data off (off + 1) = v % 2 ^ 8 ∧
    TbxMbClientExtractUInt16BE (TbxMbClientStoreUInt16BE v data off) off
      = v := by
  have hhi : TbxMbClientStoreUInt16BE v data off off = v / 2 ^ 8 := by
    simp [TbxMbClientStoreUInt16BE, Nat.shiftRight_eq_div_pow]
    omega
  have hlo : TbxMbClientStoreUInt16BE v data off (off + 1) = v % 2 ^ 8 := by
    simp [TbxMbClientStoreUInt16BE]
  refine ⟨hhi, hlo, ?_⟩
  rw [TbxMbClientExtractUInt16BE, hhi, hlo,
      shiftLeft_lor_byte _ _ (Nat.mod_lt _ (by norm_num))]
  omega

/-- Witness for C8 at the concrete value 0x1234. -/
theorem storeExtract_roundtrip_witness :
    (4660 : Nat) < 2 ^ 16 ∧
    TbxMbClientStoreUInt16BE 4660 (fun _ => 0) 0 0 = 4660 / 2 ^ 8 ∧
    TbxMbClientStoreUInt16BE 4660 (fun _ => 0) 0 1 = 4660 % 2 ^ 8 ∧
    TbxMbClientExtractUInt16BE (TbxMbClientStoreUInt16BE 4660 (fun _ => 0) 0)
      0 = 4660 := by
  refine ⟨by norm_num, ?_⟩
  have h := storeExtract_roundtrip 4660 (fun _ => 0) 0 (by norm_num)
  exact ⟨h.1, h.2.1, h.2.2⟩

/-- Environment for the read-input-registers operation: whether the transport
grants write access to the request packet, the initial contents of that
request packet, the transmit result, the semaphore take result per wait
timeout, and the response packet handed out by getRxPacketFcn (none models a
NULL return). -/
structure ClientEnv where
  txPacketGranted : Bool
  txPacketInit : tTbxMbTpPacket
  transmitResult : Nat
  semTakeResult : Nat → Nat
  rxPacket : Option tTbxMbTpPacket

/-- Output of the read-input-registers operation: the function result, the
request packet as written to the transport (none when no write access was
obtained), the caller's register array after the call, the number of
receptionDoneFcn calls made, the trace of semaphore waits, whether a NULL
pointer was dereferenced (undefined behaviour in the C source), and whether a
TBX_ASSERT fired. -/
structure ReadRegsOut where
  result : Nat
  txPacket : Option tTbxMbTpPacket
  regs : List Nat
  receptionDoneCalls : Nat
  semTakeCalls : List Nat
  nullDeref : Bool
  assertFailed : Bool

/-- Reads the input registers from the server with the specified node address
(TbxMbClientReadInputRegs, tbxmb_client.c lines 411-511).  Parameter checks
first; then the request packet is prepared (function code 04, big-endian
start address and count, data length 4) and transceive is run; for a
successful unicast exchange the response is validated (node match, exception
bit clear, byte count, data length) and on success the register values are
unpacked big endian into the caller's array; receptionDoneFcn is called once
on every path that entered response processing. -/
def TbxMbClientReadInputRegs (env : ClientEnv) (channel : Option tTbxMbClientCtx)
    (node addr num : Nat) (inputRegs : Option (List Nat)) : ReadRegsOut :=
  match channel, inputRegs with
  | some clientCtx, some regs0 =>
    if node ≤ TBX_MB_TP_NODE_ADDR_MAX ∧ 1 ≤ num ∧ num ≤ 125 then
      match clientCtx.tpCtx with
      | none =>
        { result := TBX_ERROR, txPacket := none, regs := regs0,
          receptionDoneCalls := 0, semTakeCalls := [], nullDeref := true,
          assertFailed := clientCtx.type != TBX_MB_CLIENT_CONTEXT_TYPE }
      | some _tpCtx =>
        let typeAssertFailed := clientCtx.type != TBX_MB_CLIENT_CONTEXT_TYPE
        if env.txPacketGranted then
          let d1 := TbxMbClientStoreUInt16BE addr env.txPacketInit.data 0
          let d2 := TbxMbClientStoreUInt16BE num d1 2
          let txPacket : tTbxMbTpPacket :=
            { node := node, code := TBX_MB_FC04_READ_INPUT_REGISTERS,
              data := d2, dataLen := 4 }
          let isBroadcast :=
            if node = TBX_MB_TP_NODE_ADDR_BROADCAST then TBX_TRUE else TBX_FALSE
          let tout := TbxMbClientTransceive
            { transmitResult := env.transmitResult,
              semTakeResult := env.semTakeResult } clientCtx isBroadcast
          if tout.result = TBX_OK ∧ isBroadcast = TBX_FALSE then
            match env.rxPacket with
            | none =>
              { result := TBX_ERROR, txPacket := some txPacket, regs := regs0,
                receptionDoneCalls := 1, semTakeCalls := tout.semTakeCalls,
                nullDeref := false, assertFailed := true }
            | some rxPacket =>
              let byteCount := rxPacket.data 0
              if rxPacket.node ≠ node ∨
                 rxPacket.code &&& TBX_MB_FC_EXCEPTION_MASK ≠ 0 ∨
                 byteCount ≠ num * 2 ∨
                 rxPacket.dataLen ≠ byteCount + 1 then
                { result := TBX_ERROR, txPacket := some txPacket, regs := regs0,
                  receptionDoneCalls := 1, semTakeCalls := tout.semTakeCalls,
                  nullDeref := false, assertFailed := typeAssertFailed }
              else
                let regValPtr := fun i => rxPacket.data (1 + i)
                let regs1 := (List.range num).foldl
                  (fun rs idx =>
                    rs.set idx (TbxMbClientExtractUInt16BE regValPtr (idx * 2)))
                  regs0
                { result := tout.result, txPacket := some txPacket,
                  regs := regs1, receptionDoneCalls := 1,
                  semTakeCalls := tout.semTakeCalls, nullDeref := false,
                  assertFailed := typeAssertFailed }
          else
            { result := tout.result, txPacket := some txPacket, regs := regs0,
              receptionDoneCalls := 0, semTakeCalls := tout.semTakeCalls,
              nullDeref := false, assertFailed := typeAssertFailed }
        else
          { result := TBX_ERROR, txPacket := none, regs := regs0,
            receptionDoneCalls := 0, semTakeCalls := [], nullDeref := false,
            assertFailed := typeAssertFailed }
    else
      { result := TBX_ERROR, txPacket := none, regs := regs0,
        receptionDoneCalls := 0, semTakeCalls := [], nullDeref := false,
        assertFailed := true }
  | none, some regs0 =>
      { result := TBX_ERROR, txPacket := none, regs := regs0,
        receptionDoneCalls := 0, semTakeCalls := [], nullDeref := false,
        assertFailed := true }
  | some _, none =>
      { result := TBX_ERROR, txPacket := none, regs := [],
        receptionDoneCalls := 0, semTakeCalls := [], nullDeref := false,
        assertFailed := true }
  | none, none =>
      { result := TBX_ERROR, txPacket := none, regs := [],
        receptionDoneCalls := 0, semTakeCalls := [], nullDeref := false,
        assertFailed := true }

/-- The register write loop preserves the length of the caller's array. -/
theorem foldl_set_range_length (f : Nat → Nat) (n : Nat) (regs : List Nat) :
    ((List.range n).foldl (fun rs idx => rs.set idx (f idx)) regs).length =
      regs.length := by
  induction n with
  | zero => rfl
  | succ n ih =>
    rw [List.range_succ, List.foldl_append]
    simp [ih]

/-- Element-wise description of the register write loop. -/
theorem foldl_set_range_getD (f : Nat → Nat) (n : Nat) (regs : List Nat)
    (i : Nat) :
    ((List.range n).foldl (fun rs idx => rs.set idx (f idx)) regs).getD i 0 =
      if i < n ∧ i < regs.length then f i else regs.getD i 0 := by
  induction n with
  | zero => simp
  | succ n ih =>
    rw [List.range_succ, List.foldl_append]
    simp only [List.foldl_cons, List.foldl_nil]
    by_cases hin : i = n
    · subst hin
      by_cases hlen : i < regs.length
      · rw [List.getD_eq_getElem?_getD,
            List.getElem?_set_self (by rw [foldl_set_range_length]; exact hlen)]
        simp [hlen]
      · rw [List.set_eq_of_length_le (by rw [foldl_set_range_length]; omega),
            ih]
        simp [hlen]
    · have hset :
          (((List.range n).foldl (fun rs idx => rs.set idx (f idx)) regs).set
            n (f n)).getD i 0 =
          ((List.range n).foldl (fun rs idx => rs.set idx (f idx)) regs).getD
            i 0 := by
        rw [List.getD_eq_getElem?_getD, List.getElem?_set_ne (by omega),
            ← List.getD_eq_getElem?_getD]
      rw [hset, ih]
      have hiff : (i < n ∧ i < regs.length) ↔ (i < n + 1 ∧ i < regs.length) := by
        constructor <;> intro hh <;> exact ⟨by omega, hh.2⟩
      rw [if_congr hiff rfl rfl]

/-- The request packet the read-input-registers operation writes into the
transport's transmit buffer. -/
def readRegsRequestPacket (env : ClientEnv) (node addr num : Nat) :
    tTbxMbTpPacket :=
  { node := node, code := TBX_MB_FC04_READ_INPUT_REGISTERS,
    data := TbxMbClientStoreUInt16BE num
      (TbxMbClientStoreUInt16BE addr env.txPacketInit.data 0) 2,
    dataLen := 4 }

/-- The caller's register array after the unpack loop of the
read-input-registers operation. -/
def readRegsDecode (rx : tTbxMbTpPacket) (num : Nat) (regs0 : List Nat) :
    List Nat :=
  (List.range num).foldl
    (fun rs idx =>
      rs.set idx (TbxMbClientExtractUInt16BE (fun i => rx.data (1 + i))
        (idx * 2)))
    regs0

/-- Unfolding helper: a fully valid unicast read-input-registers call whose
transmit succeeds and whose response semaphore is signalled, with a response
packet available, reduces to the validation split. -/
theorem readInputRegs_unicast_some (env : ClientEnv) (ctx : tTbxMbClientCtx)
    (tp : tTbxMbTpCtx) (node addr num : Nat) (regs0 : List Nat)
    (rx : tTbxMbTpPacket)
    (htp : ctx.tpCtx = some tp)
    (hnode : node ≤ TBX_MB_TP_NODE_ADDR_MAX)
    (hnum1 : 1 ≤ num) (hnum2 : num ≤ 125)
    (huni : node ≠ TBX_MB_TP_NODE_ADDR_BROADCAST)
    (htx : env.txPacketGranted = true)
    (htr : env.transmitResult = TBX_OK)
    (hsem : env.semTakeResult ctx.responseTimeout = TBX_TRUE)
    (hrx : env.rxPacket = some rx) :
    TbxMbClientReadInputRegs env (some ctx) node addr num (some regs0) =
      if rx.node ≠ node ∨ rx.code &&& TBX_MB_FC_EXCEPTION_MASK ≠ 0 ∨
         rx.data 0 ≠ num * 2 ∨ rx.dataLen ≠ rx.data 0 + 1 then
        { result := TBX_ERROR,
          txPacket := some (readRegsRequestPacket env node addr num),
          regs := regs0, receptionDoneCalls := 1,
          semTakeCalls := [ctx.responseTimeout], nullDeref := false,
          assertFailed := ctx.type != TBX_MB_CLIENT_CONTEXT_TYPE }
      else
        { result := TBX_OK,
          txPacket := some (readRegsRequestPacket env node addr num),
          regs := readRegsDecode rx num regs0, receptionDoneCalls := 1,
          semTakeCalls := [ctx.responseTimeout], nullDeref := false,
          assertFailed := ctx.type != TBX_MB_CLIENT_CONTEXT_TYPE } := by
  have hsem' : env.semTakeResult ctx.responseTimeout ≠ TBX_FALSE := by
    rw [hsem]; simp [TBX_TRUE, TBX_FALSE]
  simp only [TbxMbClientReadInputRegs, htp]
  rw [if_pos ⟨hnode, hnum1, hnum2⟩]
  simp only [htx, if_true]
  rw [if_neg huni]
  rw [transceive_unicast_ok ⟨env.transmitResult, env.semTakeResult⟩ ctx htr hsem']
  rw [if_pos ⟨rfl, rfl⟩]
  simp only [hrx]
  rfl

/-- Unfolding helper: the same situation but the transport hands out no
response packet (getRxPacketFcn returns NULL): failure, array untouched,
reception-done still released once. -/
theorem readInputRegs_unicast_none (env : ClientEnv) (ctx : tTbxMbClientCtx)
    (tp : tTbxMbTpCtx) (node addr num : Nat) (regs0 : List Nat)
    (htp : ctx.tpCtx = some tp)
    (hnode : node ≤ TBX_MB_TP_NODE_ADDR_MAX)
    (hnum1 : 1 ≤ num) (hnum2 : num ≤ 125)
    (huni : node ≠ TBX_MB_TP_NODE_ADDR_BROADCAST)
    (htx : env.txPacketGranted = true)
    (htr : env.transmitResult = TBX_OK)
    (hsem : env.semTakeResult ctx.responseTimeout = TBX_TRUE)
    (hrx : env.rxPacket = none) :
    TbxMbClientReadInputRegs env (some ctx) node addr num (some regs0) =
      { result := TBX_ERROR,
        txPacket := some (readRegsRequestPacket env node addr num),
        regs := regs0, receptionDoneCalls := 1,
        semTakeCalls := [ctx.responseTimeout], nullDeref := false,
        assertFailed := true } := by
  have hsem' : env.semTakeResult ctx.responseTimeout ≠ TBX_FALSE := by
    rw [hsem]; simp [TBX_TRUE, TBX_FALSE]
  simp only [TbxMbClientReadInputRegs, htp]
  rw [if_pos ⟨hnode, hnum1, hnum2⟩]
  simp only [htx, if_true]
  rw [if_neg huni]
  rw [transceive_unicast_ok ⟨env.transmitResult, env.semTakeResult⟩ ctx htr hsem']
  rw [if_pos ⟨rfl, rfl⟩]
  simp only [hrx]
  rfl

/-- C2: for every valid call to read input registers with unicast node in
range, count in 1..125 and non-null channel and output array, under a
successful exchange: the request is built with function code 0x04 and a
4-byte payload of big-endian start address followed by big-endian count; the
response is accepted exactly when the response node equals the request node,
the exception bit is clear, the byte-count field equals count*2 and the
declared data length equals byteCount+1; and in that case exactly count
big-endian 16-bit values are unpacked into the output array and the call
returns success. -/
theorem readInputRegs_request_validation_unpack (env : ClientEnv)
    (ctx : tTbxMbClientCtx) (tp : tTbxMbTpCtx) (node addr num : Nat)
    (regs0 : List Nat) (rx : tTbxMbTpPacket)
    (htp : ctx.tpCtx = some tp)
    (hnode : node ≤ TBX_MB_TP_NODE_ADDR_MAX)
    (hnum1 : 1 ≤ num) (hnum2 : num ≤ 125)
    (huni : node ≠ TBX_MB_TP_NODE_ADDR_BROADCAST)
    (htx : env.txPacketGranted = true)
    (htr : env.transmitResult = TBX_OK)
    (hsem : env.semTakeResult ctx.responseTimeout = TBX_TRUE)
    (hrx : env.rxPacket = some rx)
    (haddr : addr < 2 ^ 16)
    (hlen : num ≤ regs0.length)
    (hbytes : ∀ i, i < num → rx.data (2 + 2 * i) < 2 ^ 8) :
    (TbxMbClientReadInputRegs env (some ctx) node addr num
        (some regs0)).txPacket = some (readRegsRequestPacket env node addr num) ∧
    (readRegsRequestPacket env node addr num).code =
      TBX_MB_FC04_READ_INPUT_REGISTERS ∧
    (readRegsRequestPacket env node addr num).node = node ∧
    (readRegsRequestPacket env node addr num).dataLen = 4 ∧
    (readRegsRequestPacket env node addr num).data 0 = addr / 2 ^ 8 ∧
    (readRegsRequestPacket env node addr num).data 1 = addr % 2 ^ 8 ∧
    (readRegsRequestPacket env node addr num).data 2 = num / 2 ^ 8 ∧
    (readRegsRequestPacket env node addr num).data 3 = num % 2 ^ 8 ∧
    ((TbxMbClientReadInputRegs env (some ctx) node addr num
        (some regs0)).result = TBX_OK ↔
      (rx.node = node ∧ rx.code &&& TBX_MB_FC_EXCEPTION_MASK = 0 ∧
       rx.data 0 = num * 2 ∧ rx.dataLen = num * 2 + 1)) ∧
    ((rx.node = node ∧ rx.code &&& TBX_MB_FC_EXCEPTION_MASK = 0 ∧
       rx.data 0 = num * 2 ∧ rx.dataLen = num * 2 + 1) →
      ((TbxMbClientReadInputRegs env (some ctx) node addr num
          (some regs0)).regs.length = regs0.length ∧
       (∀ i, i < num →
         (TbxMbClientReadInputRegs env (some ctx) node addr num
             (some regs0)).regs.getD i 0 =
           2 ^ 8 * rx.data (1 + 2 * i) + rx.data (2 + 2 * i)) ∧
       (∀ i, num ≤ i →
         (TbxMbClientReadInputRegs env (some ctx) node addr num
             (some regs0)).regs.getD i 0 = regs0.getD i 0))) := by
  have hcore := readInputRegs_unicast_some env ctx tp node addr num regs0 rx
    htp hnode hnum1 hnum2 huni htx htr hsem hrx
  have hb0 : (readRegsRequestPacket env node addr num).data 0 = addr / 2 ^ 8 := by
    simp [readRegsRequestPacket, TbxMbClientStoreUInt16BE,
      Nat.shiftRight_eq_div_pow]
    omega
  have hb1 : (readRegsRequestPacket env node addr num).data 1 = addr % 2 ^ 8 := by
    simp [readRegsRequestPacket, TbxMbClientStoreUInt16BE]
  have hb2 : (readRegsRequestPacket env node addr num).data 2 = num / 2 ^ 8 := by
    simp [readRegsRequestPacket, TbxMbClientStoreUInt16BE,
      Nat.shiftRight_eq_div_pow]
    omega
  have hb3 : (readRegsRequestPacket env node addr num).data 3 = num % 2 ^ 8 := by
    simp [readRegsRequestPacket, TbxMbClientStoreUInt16BE]
  by_cases hvc : rx.node ≠ node ∨ rx.code &&& TBX_MB_FC_EXCEPTION_MASK ≠ 0 ∨
      rx.data 0 ≠ num * 2 ∨ rx.dataLen ≠ rx.data 0 + 1
  · have hPF : (rx.node = node ∧ rx.code &&& TBX_MB_FC_EXCEPTION_MASK = 0 ∧
        rx.data 0 = num * 2 ∧ rx.dataLen = num * 2 + 1) → False := by
      rintro ⟨h1, h2, h3, h4⟩
      rcases hvc with h | h | h | h
      · exact h h1
      · exact h h2
      · exact h h3
      · apply h; omega
    rw [hcore, if_pos hvc]
    refine ⟨rfl, rfl, rfl, rfl, hb0, hb1, hb2, hb3, ?_, fun hP => (hPF hP).elim⟩
    constructor
    · intro h
      exact absurd h (by simp [TBX_ERROR, TBX_OK])
    · intro hP
      exact (hPF hP).elim
  · push_neg at hvc
    obtain ⟨h1, h2, h3, h4⟩ := hvc
    rw [hcore, if_neg (by simp [h1, h2, h3, h4])]
    refine ⟨rfl, rfl, rfl, rfl, hb0, hb1, hb2, hb3, ?_, ?_⟩
    · constructor
      · intro _
        exact ⟨h1, h2, h3, by omega⟩
      · intro _
        rfl
    · intro _
      refine ⟨?_, ?_, ?_⟩
      · simpa [readRegsDecode] using
          foldl_set_range_length
            (fun idx => TbxMbClientExtractUInt16BE (fun i => rx.data (1 + i))
              (idx * 2)) num regs0
      · intro i hi
        have hgd := foldl_set_range_getD
          (fun idx => TbxMbClientExtractUInt16BE (fun i => rx.data (1 + i))
            (idx * 2)) num regs0 i
        simp only [readRegsDecode]
        rw [hgd, if_pos ⟨hi, by omega⟩, TbxMbClientExtractUInt16BE]
        have e1 : 1 + i * 2 = 1 + 2 * i := by ring
        have e2 : 1 + (i * 2 + 1) = 2 + 2 * i := by ring
        rw [e1, e2, shiftLeft_lor_byte _ _ (hbytes i hi)]
      · intro i hi
        have hgd := foldl_set_range_getD
          (fun idx => TbxMbClientExtractUInt16BE (fun i => rx.data (1 + i))
            (idx * 2)) num regs0 i
        simp only [readRegsDecode]
        rw [hgd, if_neg (by omega)]

/-- Concrete response packet of the C2 test scenario: function code 0x04,
byte count 6, payload bytes 0x00 0x0A 0x00 0x0B 0x00 0x0C. -/
def rxC2 : tTbxMbTpPacket :=
  { node := 5, code := 4, data := fun i => [6, 0, 10, 0, 11, 0, 12].getD i 0,
    dataLen := 7 }

/-- Concrete transport context for the test scenarios. -/
def tpC2 : tTbxMbTpCtx :=
  { transmitFcn := true, receptionDoneFcn := true, getRxPacketFcn := true,
    getTxPacketFcn := true, channelCtx := true, isClient := 1 }

/-- Concrete live client channel context for the test scenarios. -/
def ctxC2 : tTbxMbClientCtx :=
  { type := 23, instancePtr := none, pollFcn := none, processFcn := some (),
    responseTimeout := 500, turnaroundDelay := 100, responseSem := some (),
    tpCtx := some tpC2 }

/-- Concrete environment of the C2 test scenario. -/
def envC2 : ClientEnv :=
  { txPacketGranted := true,
    txPacketInit := { node := 0, code := 0, data := fun _ => 0, dataLen := 0 },
    transmitResult := TBX_OK, semTakeResult := fun _ => TBX_TRUE,
    rxPacket := some rxC2 }

/-- Witness for C2: readInputRegisters(ch, node=5, addr=100, count=3, out)
builds payload bytes 0x00 0x64 0x00 0x03 and the scenario response yields
out = 10, 11, 12 and success. -/
theorem readInputRegs_request_validation_unpack_witness :
    (TbxMbClientReadInputRegs envC2 (some ctxC2) 5 100 3
        (some [0, 0, 0])).result = TBX_OK ∧
    (readRegsRequestPacket envC2 5 100 3).data 0 = 0 ∧
    (readRegsRequestPacket envC2 5 100 3).data 1 = 100 ∧
    (readRegsRequestPacket envC2 5 100 3).data 2 = 0 ∧
    (readRegsRequestPacket envC2 5 100 3).data 3 = 3 ∧
    (TbxMbClientReadInputRegs envC2 (some ctxC2) 5 100 3
        (some [0, 0, 0])).regs.getD 0 0 = 10 ∧
    (TbxMbClientReadInputRegs envC2 (some ctxC2) 5 100 3
        (some [0, 0, 0])).regs.getD 1 0 = 11 ∧
    (TbxMbClientReadInputRegs envC2 (some ctxC2) 5 100 3
        (some [0, 0, 0])).regs.getD 2 0 = 12 := by
  have h := readInputRegs_request_validation_unpack envC2 ctxC2 tpC2 5 100 3
    [0, 0, 0] rxC2 rfl (by decide) (by decide) (by decide) (by decide) rfl rfl
    rfl rfl (by decide) (by decide) (by decide)
  have hval : rxC2.node = 5 ∧ rxC2.code &&& TBX_MB_FC_EXCEPTION_MASK = 0 ∧
      rxC2.data 0 = 3 * 2 ∧ rxC2.dataLen = 3 * 2 + 1 := by decide
  have hunp := h.2.2.2.2.2.2.2.2.2 hval
  refine ⟨h.2.2.2.2.2.2.2.2.1.mpr hval, ?_, ?_, ?_, ?_, ?_, ?_, ?_⟩
  · exact (h.2.2.2.2.1).trans (by decide)
  · exact (h.2.2.2.2.2.1).trans (by decide)
  · exact (h.2.2.2.2.2.2.1).trans (by decide)
  · exact (h.2.2.2.2.2.2.2.1).trans (by decide)
  · exact (hunp.2.1 0 (by decide)).trans (by decide)
  · exact (hunp.2.1 1 (by decide)).trans (by decide)
  · exact (hunp.2.1 2 (by decide)).trans (by decide)

/-- C3: for every unicast read-input-registers call whose transceive succeeds
(a response was signalled), the reception-done release is invoked on the
transport exactly once, on the validation-success path and on every
validation-failure path; on the failure paths (inaccessible response packet
or failed content validation) the call returns failure and the output array
is left unmodified. -/
theorem readInputRegs_reception_release (env : ClientEnv)
    (ctx : tTbxMbClientCtx) (tp : tTbxMbTpCtx) (node addr num : Nat)
    (regs0 : List Nat)
    (htp : ctx.tpCtx = some tp)
    (hnode : node ≤ TBX_MB_TP_NODE_ADDR_MAX)
    (hnum1 : 1 ≤ num) (hnum2 : num ≤ 125)
    (huni : node ≠ TBX_MB_TP_NODE_ADDR_BROADCAST)
    (htx : env.txPacketGranted = true)
    (htr : env.transmitResult = TBX_OK)
    (hsem : env.semTakeResult ctx.responseTimeout = TBX_TRUE) :
    (TbxMbClientReadInputRegs env (some ctx) node addr num
        (some regs0)).receptionDoneCalls = 1 ∧
    (env.rxPacket = none →
      (TbxMbClientReadInputRegs env (some ctx) node addr num
          (some regs0)).result = TBX_ERROR ∧
      (TbxMbClientReadInputRegs env (some ctx) node addr num
          (some regs0)).regs = regs0) ∧
    (∀ rx, env.rxPacket = some rx →
      (rx.node ≠ node ∨ rx.code &&& TBX_MB_FC_EXCEPTION_MASK ≠ 0 ∨
       rx.data 0 ≠ num * 2 ∨ rx.dataLen ≠ rx.data 0 + 1) →
      (TbxMbClientReadInputRegs env (some ctx) node addr num
          (some regs0)).result = TBX_ERROR ∧
      (TbxMbClientReadInputRegs env (some ctx) node addr num
          (some regs0)).regs = regs0) := by
  refine ⟨?_, ?_, ?_⟩
  · cases hrxp : env.rxPacket with
    | none =>
      rw [readInputRegs_unicast_none env ctx tp node addr num regs0
        htp hnode hnum1 hnum2 huni htx htr hsem hrxp]
    | some rx =>
      rw [readInputRegs_unicast_some env ctx tp node addr num regs0 rx
        htp hnode hnum1 hnum2 huni htx htr hsem hrxp]
      split <;> rfl
  · intro hrxp
    rw [readInputRegs_unicast_none env ctx tp node addr num regs0
      htp hnode hnum1 hnum2 huni htx htr hsem hrxp]
    exact ⟨rfl, rfl⟩
  · intro rx hrxp hinv
    rw [readInputRegs_unicast_some env ctx tp node addr num regs0 rx
      htp hnode hnum1 hnum2 huni htx htr hsem hrxp, if_pos hinv]
    exact ⟨rfl, rfl⟩

/-- Concrete response packet of the C3 test scenario: byte count field 4
although 6 bytes were requested (mismatch). -/
def rxC3 : tTbxMbTpPacket :=
  { node := 5, code := 4, data := fun i => [4, 0, 10, 0, 11, 0, 12].getD i 0,
    dataLen := 7 }

/-- Concrete environment of the C3 test scenario. -/
def envC3 : ClientEnv :=
  { txPacketGranted := true,
    txPacketInit := { node := 0, code := 0, data := fun _ => 0, dataLen := 0 },
    transmitResult := TBX_OK, semTakeResult := fun _ => TBX_TRUE,
    rxPacket := some rxC3 }

/-- Witness for C3: the scenario response with byte count 4 yields failure
with the output array unmodified, and the buffer is released exactly once. -/
theorem readInputRegs_reception_release_witness :
    (TbxMbClientReadInputRegs envC3 (some ctxC2) 5 100 3
        (some [0, 0, 0])).receptionDoneCalls = 1 ∧
    (TbxMbClientReadInputRegs envC3 (some ctxC2) 5 100 3
        (some [0, 0, 0])).result = TBX_ERROR ∧
    (TbxMbClientReadInputRegs envC3 (some ctxC2) 5 100 3
        (some [0, 0, 0])).regs = [0, 0, 0] := by
  have h := readInputRegs_reception_release envC3 ctxC2 tpC2 5 100 3 [0, 0, 0]
    rfl (by decide) (by decide) (by decide) (by decide) rfl rfl rfl
  have hbad := h.2.2 rxC3 rfl (by decide)
  exact ⟨h.1, hbad.1, hbad.2⟩

/-- Output of the stubbed client operations: the function result, the
caller's data array after the call and the list of transport interface calls
made (the stubs make none). -/
structure StubOut where
  result : Nat
  arr : List Nat
  tpCalls : List Unit

/-- Reads the coils from the server (TbxMbClientReadCoils, tbxmb_client.c
lines 319-346): parameter check, then only the dummy write coils[0] :=
TBX_OFF; always returns TBX_ERROR and performs no transport calls. -/
def TbxMbClientReadCoils (channel : Option tTbxMbClientCtx)
    (node addr num : Nat) (coils : Option (List Nat)) : StubOut :=
  match channel, coils with
  | some _clientCtx, some coils0 =>
    if node ≤ TBX_MB_TP_NODE_ADDR_MAX ∧ 1 ≤ num ∧ num ≤ 2000 then
      { result := TBX_ERROR, arr := coils0.set 0 TBX_OFF, tpCalls := [] }
    else
      { result := TBX_ERROR, arr := coils0, tpCalls := [] }
  | some _clientCtx, none => { result := TBX_ERROR, arr := [], tpCalls := [] }
  | none, some coils0 => { result := TBX_ERROR, arr := coils0, tpCalls := [] }
  | none, none => { result := TBX_ERROR, arr := [], tpCalls := [] }

/-- Reads the discrete inputs from the server (TbxMbClientReadInputs,
tbxmb_client.c lines 365-392): parameter check, then only the dummy write
inputs[0] := TBX_OFF; always returns TBX_ERROR, no transport calls. -/
def TbxMbClientReadInputs (channel : Option tTbxMbClientCtx)
    (node addr num : Nat) (inputs : Option (List Nat)) : StubOut :=
  match channel, inputs with
  | some _clientCtx, some inputs0 =>
    if node ≤ TBX_MB_TP_NODE_ADDR_MAX ∧ 1 ≤ num ∧ num ≤ 2000 then
      { result := TBX_ERROR, arr := inputs0.set 0 TBX_OFF, tpCalls := [] }
    else
      { result := TBX_ERROR, arr := inputs0, tpCalls := [] }
  | some _clientCtx, none => { result := TBX_ERROR, arr := [], tpCalls := [] }
  | none, some inputs0 => { result := TBX_ERROR, arr := inputs0, tpCalls := [] }
  | none, none => { result := TBX_ERROR, arr := [], tpCalls := [] }

/-- Reads the holding registers from the server (TbxMbClientReadHoldingRegs,
tbxmb_client.c lines 530-557): parameter check, then only the dummy write
holdingRegs[0] := 0; always returns TBX_ERROR, no transport calls. -/
def TbxMbClientReadHoldingRegs (channel : Option tTbxMbClientCtx)
    (node addr num : Nat) (holdingRegs : Option (List Nat)) : StubOut :=
  match channel, holdingRegs with
  | some _clientCtx, some regs0 =>
    if node ≤ TBX_MB_TP_NODE_ADDR_MAX ∧ 1 ≤ num ∧ num ≤ 125 then
      { result := TBX_ERROR, arr := regs0.set 0 0, tpCalls := [] }
    else
      { result := TBX_ERROR, arr := regs0, tpCalls := [] }
  | some _clientCtx, none => { result := TBX_ERROR, arr := [], tpCalls := [] }
  | none, some regs0 => { result := TBX_ERROR, arr := regs0, tpCalls := [] }
  | none, none => { result := TBX_ERROR, arr := [], tpCalls := [] }

/-- Writes the coils to the server (TbxMbClientWriteCoils, tbxmb_client.c
lines 574-600): parameter check only; the input array is const and is never
modified; always returns TBX_ERROR, no transport calls. -/
def TbxMbClientWriteCoils (channel : Option tTbxMbClientCtx)
    (node addr num : Nat) (coils : Option (List Nat)) : StubOut :=
  match channel, coils with
  | some _clientCtx, some coils0 =>
    if node ≤ TBX_MB_TP_NODE_ADDR_MAX ∧ 1 ≤ num ∧ num ≤ 1968 then
      { result := TBX_ERROR, arr := coils0, tpCalls := [] }
    else
      { result := TBX_ERROR, arr := coils0, tpCalls := [] }
  | some _clientCtx, none => { result := TBX_ERROR, arr := [], tpCalls := [] }
  | none, some coils0 => { result := TBX_ERROR, arr := coils0, tpCalls := [] }
  | none, none => { result := TBX_ERROR, arr := [], tpCalls := [] }

/-- Writes the holding registers to the server
(TbxMbClientWriteHoldingRegs, tbxmb_client.c lines 618-644): parameter check
only; the input array is const and is never modified; always returns
TBX_ERROR, no transport calls. -/
def TbxMbClientWriteHoldingRegs (channel : Option tTbxMbClientCtx)
    (node addr num : Nat) (holdingRegs : Option (List Nat)) : StubOut :=
  match channel, holdingRegs with
  | some _clientCtx, some regs0 =>
    if node ≤ TBX_MB_TP_NODE_ADDR_MAX ∧ 1 ≤ num ∧ num ≤ 123 then
      { result := TBX_ERROR, arr := regs0, tpCalls := [] }
    else
      { result := TBX_ERROR, arr := regs0, tpCalls := [] }
  | some _clientCtx, none => { result := TBX_ERROR, arr := [], tpCalls := [] }
  | none, some regs0 => { result := TBX_ERROR, arr := regs0, tpCalls := [] }
  | none, none => { result := TBX_ERROR, arr := [], tpCalls := [] }

/-- C4: every public read/write operation called with a null channel, a null
data-array pointer, a node address above the maximum or a count outside the
operation's declared range returns failure, performs no transport calls and
leaves the caller's array untouched. -/
theorem client_ops_param_validation :
    (∀ (channel : Option tTbxMbClientCtx) (node addr num : Nat)
       (coils : Option (List Nat)),
      (channel = none ∨ coils = none ∨ TBX_MB_TP_NODE_ADDR_MAX < node ∨
       num < 1 ∨ 2000 < num) →
      TbxMbClientReadCoils channel node addr num coils =
        { result := TBX_ERROR, arr := coils.getD [], tpCalls := [] }) ∧
    (∀ (channel : Option tTbxMbClientCtx) (node addr num : Nat)
       (inputs : Option (List Nat)),
      (channel = none ∨ inputs = none ∨ TBX_MB_TP_NODE_ADDR_MAX < node ∨
       num < 1 ∨ 2000 < num) →
      TbxMbClientReadInputs channel node addr num inputs =
        { result := TBX_ERROR, arr := inputs.getD [], tpCalls := [] }) ∧
    (∀ (env : ClientEnv) (channel : Option tTbxMbClientCtx)
       (node addr num : Nat) (inputRegs : Option (List Nat)),
      (channel = none ∨ inputRegs = none ∨ TBX_MB_TP_NODE_ADDR_MAX < node ∨
       num < 1 ∨ 125 < num) →
      (TbxMbClientReadInputRegs env channel node addr num inputRegs).result =
        TBX_ERROR ∧
      (TbxMbClientReadInputRegs env channel node addr num
        inputRegs).txPacket = none ∧
      (TbxMbClientReadInputRegs env channel node addr num inputRegs).regs =
        inputRegs.getD [] ∧
      (TbxMbClientReadInputRegs env channel node addr num
        inputRegs).receptionDoneCalls = 0 ∧
      (TbxMbClientReadInputRegs env channel node addr num
        inputRegs).semTakeCalls = []) ∧
    (∀ (channel : Option tTbxMbClientCtx) (node addr num : Nat)
       (holdingRegs : Option (List Nat)),
      (channel = none ∨ holdingRegs = none ∨ TBX_MB_TP_NODE_ADDR_MAX < node ∨
       num < 1 ∨ 125 < num) →
      TbxMbClientReadHoldingRegs channel node addr num holdingRegs =
        { result := TBX_ERROR, arr := holdingRegs.getD [], tpCalls := [] }) ∧
    (∀ (channel : Option tTbxMbClientCtx) (node addr num : Nat)
       (coils : Option (List Nat)),
      (channel = none ∨ coils = none ∨ TBX_MB_TP_NODE_ADDR_MAX < node ∨
       num < 1 ∨ 1968 < num) →
      TbxMbClientWriteCoils channel node addr num coils =
        { result := TBX_ERROR, arr := coils.getD [], tpCalls := [] }) ∧
    (∀ (channel : Option tTbxMbClientCtx) (node addr num : Nat)
       (holdingRegs : Option (List Nat)),
      (channel = none ∨ holdingRegs = none ∨ TBX_MB_TP_NODE_ADDR_MAX < node ∨
       num < 1 ∨ 123 < num) →
      TbxMbClientWriteHoldingRegs channel node addr num holdingRegs =
        { result := TBX_ERROR, arr := holdingRegs.getD [], tpCalls := [] }) := by
  refine ⟨?_, ?_, ?_, ?_, ?_, ?_⟩
  · intro channel node addr num coils hinv
    rcases channel with _ | ctx
    · rcases coils with _ | c <;> rfl
    · rcases coils with _ | c
      · rfl
      · have hr : ¬(node ≤ TBX_MB_TP_NODE_ADDR_MAX ∧ 1 ≤ num ∧ num ≤ 2000) := by
          rcases hinv with h | h | h | h | h
          · exact Option.noConfusion h
          · exact Option.noConfusion h
          · omega
          · omega
          · omega
        simp only [TbxMbClientReadCoils]
        rw [if_neg hr]
        rfl
  · intro channel node addr num inputs hinv
    rcases channel with _ | ctx
    · rcases inputs with _ | c <;> rfl
    · rcases inputs with _ | c
      · rfl
      · have hr : ¬(node ≤ TBX_MB_TP_NODE_ADDR_MAX ∧ 1 ≤ num ∧ num ≤ 2000) := by
          rcases hinv with h | h | h | h | h
          · exact Option.noConfusion h
          · exact Option.noConfusion h
          · omega
          · omega
          · omega
        simp only [TbxMbClientReadInputs]
        rw [if_neg hr]
        rfl
  · intro env channel node addr num inputRegs hinv
    rcases channel with _ | ctx
    · rcases inputRegs with _ | c <;> exact ⟨rfl, rfl, rfl, rfl, rfl⟩
    · rcases inputRegs with _ | c
      · exact ⟨rfl, rfl, rfl, rfl, rfl⟩
      · have hr : ¬(node ≤ TBX_MB_TP_NODE_ADDR_MAX ∧ 1 ≤ num ∧ num ≤ 125) := by
          rcases hinv with h | h | h | h | h
          · exact Option.noConfusion h
          · exact Option.noConfusion h
          · omega
          · omega
          · omega
        simp only [TbxMbClientReadInputRegs]
        rw [if_neg hr]
        exact ⟨rfl, rfl, rfl, rfl, rfl⟩
  · intro channel node addr num holdingRegs hinv
    rcases channel with _ | ctx
    · rcases holdingRegs with _ | c <;> rfl
    · rcases holdingRegs with _ | c
      · rfl
      · have hr : ¬(node ≤ TBX_MB_TP_NODE_ADDR_MAX ∧ 1 ≤ num ∧ num ≤ 125) := by
          rcases hinv with h | h | h | h | h
          · exact Option.noConfusion h
          · exact Option.noConfusion h
          · omega
          · omega
          · omega
        simp only [TbxMbClientReadHoldingRegs]
        rw [if_neg hr]
        rfl
  · intro channel node addr num coils hinv
    rcases channel with _ | ctx
    · rcases coils with _ | c <;> rfl
    · rcases coils with _ | c
      · rfl
      · have hr : ¬(node ≤ TBX_MB_TP_NODE_ADDR_MAX ∧ 1 ≤ num ∧ num ≤ 1968) := by
          rcases hinv with h | h | h | h | h
          · exact Option.noConfusion h
          · exact Option.noConfusion h
          · omega
          · omega
          · omega
        simp only [TbxMbClientWriteCoils]
        rw [if_neg hr]
        rfl
  · intro channel node addr num holdingRegs hinv
    rcases channel with _ | ctx
    · rcases holdingRegs with _ | c <;> rfl
    · rcases holdingRegs with _ | c
      · rfl
      · have hr : ¬(node ≤ TBX_MB_TP_NODE_ADDR_MAX ∧ 1 ≤ num ∧ num ≤ 123) := by
          rcases hinv with h | h | h | h | h
          · exact Option.noConfusion h
          · exact Option.noConfusion h
          · omega
          · omega
          · omega
        simp only [TbxMbClientWriteHoldingRegs]
        rw [if_neg hr]
        rfl

/-- Witness for C4: each operation rejects count 0 (below every declared
range) at a concrete live channel and leaves the array untouched. -/
theorem client_ops_param_validation_witness :
    TbxMbClientReadCoils (some ctxC2) 5 100 0 (some [7]) =
      { result := TBX_ERROR, arr := [7], tpCalls := [] } ∧
    TbxMbClientReadInputs (some ctxC2) 5 100 0 (some [7]) =
      { result := TBX_ERROR, arr := [7], tpCalls := [] } ∧
    (TbxMbClientReadInputRegs envC2 (some ctxC2) 5 100 0 (some [7])).result =
      TBX_ERROR ∧
    (TbxMbClientReadInputRegs envC2 (some ctxC2) 5 100 0
      (some [7])).semTakeCalls = [] ∧
    TbxMbClientReadHoldingRegs (some ctxC2) 5 100 0 (some [7]) =
      { result := TBX_ERROR, arr := [7], tpCalls := [] } ∧
    TbxMbClientWriteCoils (some ctxC2) 5 100 0 (some [7]) =
      { result := TBX_ERROR, arr := [7], tpCalls := [] } ∧
    TbxMbClientWriteHoldingRegs (some ctxC2) 5 100 0 (some [7]) =
      { result := TBX_ERROR, arr := [7], tpCalls := [] } := by
  have hzero : (0 : Nat) < 1 := by decide
  have h3 := client_ops_param_validation.2.2.1 envC2 (some ctxC2) 5 100 0
    (some [7]) (Or.inr (Or.inr (Or.inr (Or.inl hzero))))
  refine ⟨?_, ?_, h3.1, h3.2.2.2.2, ?_, ?_, ?_⟩
  · exact client_ops_param_validation.1 (some ctxC2) 5 100 0 (some [7])
      (Or.inr (Or.inr (Or.inr (Or.inl hzero))))
  · exact client_ops_param_validation.2.1 (some ctxC2) 5 100 0 (some [7])
      (Or.inr (Or.inr (Or.inr (Or.inl hzero))))
  · exact client_ops_param_validation.2.2.2.1 (some ctxC2) 5 100 0 (some [7])
      (Or.inr (Or.inr (Or.inr (Or.inl hzero))))
  · exact client_ops_param_validation.2.2.2.2.1 (some ctxC2) 5 100 0
      (some [7]) (Or.inr (Or.inr (Or.inr (Or.inl hzero))))
  · exact client_ops_param_validation.2.2.2.2.2 (some ctxC2) 5 100 0
      (some [7]) (Or.inr (Or.inr (Or.inr (Or.inl hzero))))

/-- C10: in this snapshot, for every call with fully valid parameters, the
five stubbed operations always return failure and make no transport calls;
readCoils and readDiscreteInputs nevertheless write TBX_OFF into element 0 of
the caller's array and readHoldingRegs writes 0 into element 0; the two write
operations modify nothing. -/
theorem client_stub_ops_dummy :
    (∀ (ctx : tTbxMbClientCtx) (node addr num : Nat) (coils0 : List Nat),
      node ≤ TBX_MB_TP_NODE_ADDR_MAX → 1 ≤ num → num ≤ 2000 →
      TbxMbClientReadCoils (some ctx) node addr num (some coils0) =
        { result := TBX_ERROR, arr := coils0.set 0 TBX_OFF, tpCalls := [] }) ∧
    (∀ (ctx : tTbxMbClientCtx) (node addr num : Nat) (inputs0 : List Nat),
      node ≤ TBX_MB_TP_NODE_ADDR_MAX → 1 ≤ num → num ≤ 2000 →
      TbxMbClientReadInputs (some ctx) node addr num (some inputs0) =
        { result := TBX_ERROR, arr := inputs0.set 0 TBX_OFF, tpCalls := [] }) ∧
    (∀ (ctx : tTbxMbClientCtx) (node addr num : Nat) (regs0 : List Nat),
      node ≤ TBX_MB_TP_NODE_ADDR_MAX → 1 ≤ num → num ≤ 125 →
      TbxMbClientReadHoldingRegs (some ctx) node addr num (some regs0) =
        { result := TBX_ERROR, arr := regs0.set 0 0, tpCalls := [] }) ∧
    (∀ (ctx : tTbxMbClientCtx) (node addr num : Nat) (coils0 : List Nat),
      node ≤ TBX_MB_TP_NODE_ADDR_MAX → 1 ≤ num → num ≤ 1968 →
      TbxMbClientWriteCoils (some ctx) node addr num (some coils0) =
        { result := TBX_ERROR, arr := coils0, tpCalls := [] }) ∧
    (∀ (ctx : tTbxMbClientCtx) (node addr num : Nat) (regs0 : List Nat),
      node ≤ TBX_MB_TP_NODE_ADDR_MAX → 1 ≤ num → num ≤ 123 →
      TbxMbClientWriteHoldingRegs (some ctx) node addr num (some regs0) =
        { result := TBX_ERROR, arr := regs0, tpCalls := [] }) := by
  refine ⟨?_, ?_, ?_, ?_, ?_⟩ <;>
    intro ctx node addr num arr0 h1 h2 h3 <;>
    simp only [TbxMbClientReadCoils, TbxMbClientReadInputs,
      TbxMbClientReadHoldingRegs, TbxMbClientWriteCoils,
      TbxMbClientWriteHoldingRegs] <;>
    rw [if_pos ⟨h1, h2, h3⟩]

/-- Witness for C10 at a concrete live channel and valid arguments. -/
theorem client_stub_ops_dummy_witness :
    TbxMbClientReadCoils (some ctxC2) 5 100 1 (some [9]) =
      { result := TBX_ERROR, arr := [TBX_OFF], tpCalls := [] } ∧
    TbxMbClientReadInputs (some ctxC2) 5 100 1 (some [9]) =
      { result := TBX_ERROR, arr := [TBX_OFF], tpCalls := [] } ∧
    TbxMbClientReadHoldingRegs (some ctxC2) 5 100 1 (some [9]) =
      { result := TBX_ERROR, arr := [0], tpCalls := [] } ∧
    TbxMbClientWriteCoils (some ctxC2) 5 100 1 (some [9]) =
      { result := TBX_ERROR, arr := [9], tpCalls := [] } ∧
    TbxMbClientWriteHoldingRegs (some ctxC2) 5 100 1 (some [9]) =
      { result := TBX_ERROR, arr := [9], tpCalls := [] } := by
  have hn : (5 : Nat) ≤ TBX_MB_TP_NODE_ADDR_MAX := by decide
  have h1 : (1 : Nat) ≤ 1 := by decide
  exact ⟨client_stub_ops_dummy.1 ctxC2 5 100 1 [9] hn h1 (by decide),
    client_stub_ops_dummy.2.1 ctxC2 5 100 1 [9] hn h1 (by decide),
    client_stub_ops_dummy.2.2.1 ctxC2 5 100 1 [9] hn h1 (by decide),
    client_stub_ops_dummy.2.2.2.1 ctxC2 5 100 1 [9] hn h1 (by decide),
    client_stub_ops_dummy.2.2.2.2 ctxC2 5 100 1 [9] hn h1 (by decide)⟩

/-- Event identifiers dispatched to a channel's event handler; otherId models
any foreign event identifier routed to the client handler. -/
inductive tTbxMbEventId where
  | pduReceived
  | pduTransmitted
  | otherId (n : Nat)
deriving DecidableEq

/-- An event as delivered to TbxMbClientProcessEvent: identifier plus the
opaque context pointer, expected to be a client channel context. -/
structure tTbxMbEvent where
  id : tTbxMbEventId
  context : Option tTbxMbClientCtx

/-- Output of the event handler: the trace of TbxMbOsalSemGive calls
(semaphore argument and fromIsr flag) and whether a TBX_ASSERT fired. -/
structure ProcessEventOut where
  semGiveCalls : List (Option Unit × Nat)
  assertFailed : Bool

/-- Event processing function of the client channel
(TbxMbClientProcessEvent, tbxmb_client.c lines 167-215): a PDU-received
event gives the response semaphore with fromIsr = TBX_FALSE, a
PDU-transmitted event does nothing, any other identifier trips
TBX_ASSERT(TBX_FALSE); the context type is checked by assertion only and the
switch executes regardless of the type tag. -/
def TbxMbClientProcessEvent (event : Option tTbxMbEvent) : ProcessEventOut :=
  match event with
  | none => { semGiveCalls := [], assertFailed := true }
  | some ev =>
    match ev.context with
    | none => { semGiveCalls := [], assertFailed := true }
    | some clientCtx =>
      let typeAssertFailed := clientCtx.type != TBX_MB_CLIENT_CONTEXT_TYPE
      match ev.id with
      | .pduReceived =>
        { semGiveCalls := [(clientCtx.responseSem, TBX_FALSE)],
          assertFailed := typeAssertFailed }
      | .pduTransmitted =>
        { semGiveCalls := [], assertFailed := typeAssertFailed }
      | .otherId _ =>
        { semGiveCalls := [], assertFailed := true }

/-- C9: for every event delivered with a valid context, PDU-received gives
the response semaphore exactly once with a non-blocking give and is the only
event that does so; PDU-transmitted causes no action and no assertion; any
other identifier trips the assertion and causes no state change. -/
theorem processEvent_dispatch (ctx : tTbxMbClientCtx)
    (h : ctx.type = TBX_MB_CLIENT_CONTEXT_TYPE) :
    TbxMbClientProcessEvent
        (some { id := .pduReceived, context := some ctx }) =
      { semGiveCalls := [(ctx.responseSem, TBX_FALSE)],
        assertFailed := false } ∧
    TbxMbClientProcessEvent
        (some { id := .pduTransmitted, context := some ctx }) =
      { semGiveCalls := [], assertFailed := false } ∧
    (∀ n, TbxMbClientProcessEvent
        (some { id := .otherId n, context := some ctx }) =
      { semGiveCalls := [], assertFailed := true }) := by
  refine ⟨?_, ?_, fun n => rfl⟩ <;>
    simp [TbxMbClientProcessEvent, h]

/-- Witness for C9 at a concrete live channel context. -/
theorem processEvent_dispatch_witness :
    ctxC2.type = TBX_MB_CLIENT_CONTEXT_TYPE ∧
    TbxMbClientProcessEvent
        (some { id := .pduReceived, context := some ctxC2 }) =
      { semGiveCalls := [(some (), TBX_FALSE)], assertFailed := false } ∧
    TbxMbClientProcessEvent
        (some { id := .pduTransmitted, context := some ctxC2 }) =
      { semGiveCalls := [], assertFailed := false } ∧
    TbxMbClientProcessEvent
        (some { id := .otherId 42, context := some ctxC2 }) =
      { semGiveCalls := [], assertFailed := true } := by
  have h := processEvent_dispatch ctxC2 rfl
  exact ⟨rfl, h.1, h.2.1, h.2.2 42⟩

/-- Block size tag of the memory pool interface: the only size the client
channel allocates is sizeof(tTbxMbClientCtx). -/
inductive TbxSizeTag where
  | szClientCtx
deriving DecidableEq

/-- A call into the MicroTBX memory pool module. -/
inductive PoolCall where
  | memPoolCreate (numBlocks : Nat) (blockSize : TbxSizeTag)
  | memPoolAllocate (blockSize : TbxSizeTag)
deriving DecidableEq

/-- Environment for TbxMbClientCreate: whether the first pool allocation
attempt succeeds and whether the retry after growing the pool succeeds. -/
structure AllocEnv where
  firstAllocOk : Bool
  secondAllocOk : Bool

/-- Output of TbxMbClientCreate: the new channel context (none on failure),
the transport context after crosslinking, the trace of memory pool calls and
whether a TBX_ASSERT fired. -/
structure CreateOut where
  result : Option tTbxMbClientCtx
  tpCtxAfter : Option tTbxMbTpCtx
  poolCalls : List PoolCall
  assertFailed : Bool

/-- Creates a Modbus client channel object (TbxMbClientCreate,
tbxmb_client.c lines 69-121): NULL transport is rejected; the context is
allocated from the pool, on a first failure the pool is grown by exactly one
block of the matching size and the allocation is retried exactly once; a
second failure trips TBX_ASSERT and yields NULL; on success all fields are
initialized and the channel and transport are crosslinked. -/
def TbxMbClientCreate (env : AllocEnv) (transport : Option tTbxMbTpCtx)
    (responseTimeout turnaroundDelay : Nat) : CreateOut :=
  match transport with
  | none =>
    { result := none, tpCtxAfter := none, poolCalls := [],
      assertFailed := true }
  | some tpCtx =>
    let fcnAssertFailed :=
      !(tpCtx.transmitFcn && tpCtx.receptionDoneFcn &&
        tpCtx.getRxPacketFcn && tpCtx.getTxPacketFcn)
    let tpCtxLinked : tTbxMbTpCtx :=
      { tpCtx with channelCtx := true, isClient := TBX_TRUE }
    let newClientCtx : tTbxMbClientCtx :=
      { type := TBX_MB_CLIENT_CONTEXT_TYPE, instancePtr := none,
        pollFcn := none, processFcn := some (),
        responseTimeout := responseTimeout,
        turnaroundDelay := turnaroundDelay, responseSem := some (),
        tpCtx := some tpCtxLinked }
    if env.firstAllocOk then
      { result := some newClientCtx, tpCtxAfter := some tpCtxLinked,
        poolCalls := [.memPoolAllocate .szClientCtx],
        assertFailed := fcnAssertFailed }
    else if env.secondAllocOk then
      { result := some newClientCtx, tpCtxAfter := some tpCtxLinked,
        poolCalls := [.memPoolAllocate .szClientCtx,
          .memPoolCreate 1 .szClientCtx, .memPoolAllocate .szClientCtx],
        assertFailed := fcnAssertFailed }
    else
      { result := none, tpCtxAfter := some tpCtx,
        poolCalls := [.memPoolAllocate .szClientCtx,
          .memPoolCreate 1 .szClientCtx, .memPoolAllocate .szClientCtx],
        assertFailed := true }

/-- C6: create returns null for a null transport without touching the pool;
otherwise it allocates from the pool, on a first-attempt failure grows the
pool by exactly one block of the matching size and retries the allocation
exactly once; a second consecutive failure trips the assertion and returns
null with no further retry. -/
theorem clientCreate_alloc_policy (env : AllocEnv) (tp : tTbxMbTpCtx)
    (rt td : Nat) :
    ((TbxMbClientCreate env none rt td).result = none ∧
     (TbxMbClientCreate env none rt td).poolCalls = []) ∧
    ((TbxMbClientCreate env (some tp) rt td).poolCalls =
      (if env.firstAllocOk then [.memPoolAllocate .szClientCtx]
       else [.memPoolAllocate .szClientCtx, .memPoolCreate 1 .szClientCtx,
         .memPoolAllocate .szClientCtx])) ∧
    ((TbxMbClientCreate env (some tp) rt td).result.isSome =
      (env.firstAllocOk || env.secondAllocOk)) ∧
    (env.firstAllocOk = false → env.secondAllocOk = false →
      (TbxMbClientCreate env (some tp) rt td).result = none ∧
      (TbxMbClientCreate env (some tp) rt td).assertFailed = true) := by
  rcases env with ⟨f, s⟩
  cases f <;> cases s <;> simp [TbxMbClientCreate]

/-- Witness for C6: with both allocation attempts failing, create makes
exactly the attempt, grow-by-one, retry sequence and returns null with the
assertion tripped. -/
theorem clientCreate_alloc_policy_witness :
    (({ firstAllocOk := false, secondAllocOk := false } : AllocEnv).firstAllocOk
      = false) ∧
    (TbxMbClientCreate { firstAllocOk := false, secondAllocOk := false }
        (some tpC2) 500 100).result = none ∧
    (TbxMbClientCreate { firstAllocOk := false, secondAllocOk := false }
        (some tpC2) 500 100).assertFailed = true ∧
    (TbxMbClientCreate { firstAllocOk := false, secondAllocOk := false }
        (some tpC2) 500 100).poolCalls =
      [.memPoolAllocate .szClientCtx, .memPoolCreate 1 .szClientCtx,
       .memPoolAllocate .szClientCtx] := by
  have h := clientCreate_alloc_policy
    { firstAllocOk := false, secondAllocOk := false } tpC2 500 100
  have hfail := h.2.2.2 rfl rfl
  refine ⟨rfl, hfail.1, hfail.2, ?_⟩
  rw [h.2.1]
  rfl

/-- The statements of TbxMbClientFree as atomic actions: free the OS
semaphore object, enter/exit the critical section, clear the transport's
channel back-reference, clear the channel's transport reference, invalidate
the type tag and the poll/process/semaphore pointers, release the context
block to the pool. -/
inductive FreeAction where
  | semFree
  | csEnter
  | clearTpChan
  | clearChanTp
  | invType
  | invPoll
  | invProcess
  | invSem
  | csExit
  | poolRelease
deriving DecidableEq

/-- Observable state while TbxMbClientFree runs: whether the channel's
transport reference and the transport's channel back-reference are still
set, the type tag, the poll/process/semaphore pointers and whether execution
is inside the critical section. -/
structure FreeSt where
  chanTp : Bool
  tpChan : Bool
  ctype : Nat
  pollPtr : Bool
  processPtr : Bool
  semPtr : Bool
  inCritical : Bool
deriving DecidableEq

/-- Effect of one TbxMbClientFree statement on the observable state. -/
def freeStep (s : FreeSt) : FreeAction → FreeSt
  | .semFree => s
  | .csEnter => { s with inCritical := true }
  | .clearTpChan => { s with tpChan := false }
  | .clearChanTp => { s with chanTp := false }
  | .invType => { s with ctype := 0 }
  | .invPoll => { s with pollPtr := false }
  | .invProcess => { s with processPtr := false }
  | .invSem => { s with semPtr := false }
  | .csExit => { s with inCritical := false }
  | .poolRelease => s

/-- Statement sequence of TbxMbClientFree (tbxmb_client.c lines 143-155, in
source order): TbxMbOsalSemFree; TbxCriticalSectionEnter;
tpCtx->channelCtx = NULL; tpCtx = NULL; type = 0; pollFcn = NULL;
processFcn = NULL; responseSem = NULL; TbxCriticalSectionExit;
TbxMemPoolRelease. -/
def TbxMbClientFreeProgram : List FreeAction :=
  [.semFree, .csEnter, .clearTpChan, .clearChanTp, .invType, .invPoll,
   .invProcess, .invSem, .csExit, .poolRelease]

/-- State of a live client channel at entry of TbxMbClientFree: crosslink
set on both sides, valid type tag, process handler and semaphore set, poll
hook null (the client never sets it), outside any critical section. -/
def freeInitSt : FreeSt :=
  { chanTp := true, tpChan := true, ctype := TBX_MB_CLIENT_CONTEXT_TYPE,
    pollPtr := false, processPtr := true, semPtr := true,
    inCritical := false }

/-- All states TbxMbClientFree passes through, initial state included. -/
def freeStates : List FreeSt :=
  List.scanl freeStep freeInitSt TbxMbClientFreeProgram

/-- Each TbxMbClientFree statement paired with the state in which it
executes. -/
def freeExec : List (FreeAction × FreeSt) :=
  (TbxMbClientFreeProgram.foldl
    (fun acc a => (acc.1 ++ [(a, acc.2)], freeStep acc.2 a))
    (([] : List (FreeAction × FreeSt)), freeInitSt)).1

/-- Whether the semaphore release statement executes inside the critical
section. -/
def freeSemFreeInCritical : Bool :=
  (freeExec.filter (fun p => p.1 == FreeAction.semFree)).all
    (fun p => p.2.inCritical)

/-- Whether the pool release statement executes inside the critical
section. -/
def freePoolReleaseInCritical : Bool :=
  (freeExec.filter (fun p => p.1 == FreeAction.poolRelease)).all
    (fun p => p.2.inCritical)

/-- Whether the two crosslink fields agree (both set or both null) in every
state, critical-section interior included. -/
def freeCrosslinkAlwaysConsistent : Bool :=
  freeStates.all (fun s => s.chanTp == s.tpChan)

/-- Whether both crosslink clears and all invalidations execute inside the
critical section. -/
def freeClearsInCritical : Bool :=
  (freeExec.filter (fun p =>
    p.1 == FreeAction.clearTpChan || p.1 == FreeAction.clearChanTp ||
    p.1 == FreeAction.invType || p.1 == FreeAction.invPoll ||
    p.1 == FreeAction.invProcess || p.1 == FreeAction.invSem)).all
    (fun p => p.2.inCritical)

/-- Whether the free path contains exactly one critical section
enter/exit pair. -/
def freeSingleCriticalSection : Bool :=
  ((TbxMbClientFreeProgram.filter (· == FreeAction.csEnter)).length == 1) &&
  ((TbxMbClientFreeProgram.filter (· == FreeAction.csExit)).length == 1)

/-- Whether the semaphore release precedes the critical section and the pool
release follows it. -/
def freeOrdering : Bool :=
  decide (TbxMbClientFreeProgram.indexOf FreeAction.semFree <
    TbxMbClientFreeProgram.indexOf FreeAction.csEnter) &&
  decide (TbxMbClientFreeProgram.indexOf FreeAction.csExit <
    TbxMbClientFreeProgram.indexOf FreeAction.poolRelease)

/-- Whether every state outside the critical section has the two crosslink
fields consistent (both set or both null). -/
def freeObservableConsistent : Bool :=
  (freeStates.filter (fun s => !s.inCritical)).all
    (fun s => s.chanTp == s.tpChan)

/-- Whether the final state is fully poisoned: crosslink cleared on both
sides, type tag zero, poll/process/semaphore pointers null. -/
def freeFinalPoisoned : Bool :=
  (freeStates.getLast?.map (fun s =>
    !s.chanTp && !s.tpChan && (s.ctype == 0) && !s.pollPtr &&
    !s.processPtr && !s.semPtr && !s.inCritical)).getD false

/-- Counterexample for C7: in TbxMbClientFree the semaphore release and the
pool release do not execute inside the critical section, and the two
crosslink fields are not both-set-or-both-null at every point (inside the
critical section there is a state with only one of them cleared), so the
claim as stated is false of the code. -/
theorem clientFree_critical_counterexample :
    freeSemFreeInCritical = false ∧
    freePoolReleaseInCritical = false ∧
    freeCrosslinkAlwaysConsistent = false := by
  decide

/-- C7 (amended): free, for a non-null handle, releases the semaphore, then
inside one single critical section clears both crosslink fields and
invalidates the type tag and the poll/process/semaphore pointers, then exits
the critical section and returns the block to the pool; at every point
outside the critical section the two crosslink fields are both set or both
null, and the final state is fully poisoned. -/
theorem clientFree_critical_section_amended :
    freeClearsInCritical = true ∧
    freeSingleCriticalSection = true ∧
    freeOrdering = true ∧
    freeObservableConsistent = true ∧
    freeFinalPoisoned = true := by
  decide

/-- Releases a Modbus client channel object (TbxMbClientFree, tbxmb_client.c
lines 130-157), as a state transformer: returns the poisoned channel context
(type tag zeroed, poll/process/semaphore pointers and transport reference
nulled) together with the updated transport context (channel back-reference
cleared). Returns none for a null handle (silent no-op) and for a channel
whose transport reference is already null (the C would dereference NULL). -/
def TbxMbClientFree (channel : Option tTbxMbClientCtx) :
    Option (tTbxMbClientCtx × tTbxMbTpCtx) :=
  match channel with
  | none => none
  | some clientCtx =>
    match clientCtx.tpCtx with
    | none => none
    | some tpCtx =>
      some ({ clientCtx with
                type := 0,
                pollFcn := none,
                processFcn := none,
                responseSem := none,
                tpCtx := none },
            { tpCtx with channelCtx := false })

/-- The stale channel context left behind by freeing the concrete live
channel of the test scenarios. -/
def staleCtxC5 : tTbxMbClientCtx :=
  match TbxMbClientFree (some ctxC2) with
  | some (ctx, _) => ctx
  | none => default

/-- C5 evaluated on the code: after free the identity tag is invalidated
(type 0) and the tag mismatch trips the assertion, but the handler does NOT
treat the event as a no-op: a PDU-received event with the stale context
still gives the (nulled) response semaphore, and a public operation with the
stale handle still dereferences the nulled transport reference (NULL
pointer dereference) instead of returning without touching it. -/
theorem staleHandle_use_not_rejected :
    staleCtxC5.type = 0 ∧
    staleCtxC5.type ≠ TBX_MB_CLIENT_CONTEXT_TYPE ∧
    (TbxMbClientProcessEvent
        (some { id := .pduReceived, context := some staleCtxC5 })).semGiveCalls
      = [(none, TBX_FALSE)] ∧
    (TbxMbClientProcessEvent
        (some { id := .pduReceived, context := some staleCtxC5 })).assertFailed
      = true ∧
    (TbxMbClientReadInputRegs envC2 (some staleCtxC5) 5 100 3
        (some [0, 0, 0])).nullDeref = true := by
  refine ⟨rfl, by decide, rfl, rfl, rfl⟩
